import Mathlib

/-!
Verification of the game-state fusion engine (`game_state_agent/models.py`).

The data model mirrors the Pydantic models: `StateUpdate` is the observation
produced by the screenshot classifier and `GameState` is the accumulated state
record. `GameState.apply_update` is a shallow embedding of the Python method of
the same name: the Python code mutates `self` and returns a `bool`, which we
model as a function `GameState → StateUpdate → GameState × Bool`. Each guarded
block of the Python method becomes one step function; `apply_update` chains
them in the source's order. Python float fields carry no arithmetic in this
code (they are only stored and copied), so they are modelled as `Rat`.
Optional-string truthiness (`if update.new_location:`) is modelled faithfully:
`None` and the empty string are both falsy.
-/

namespace NPC

/-- Major game events detectable from screen (`GameEvent` in models.py). -/
inductive GameEvent
  | none
  | party_defeated
  | boss_defeated
  | flag_discovered
deriving DecidableEq, Repr

/-- Type of screen currently displayed (`ScreenType` in models.py). -/
inductive ScreenType
  | gameplay
  | combat
  | inventory
  | equipment
  | map
  | status
  | camp_menu
  | flag_menu
  | loading
  | death_screen
  | cutscene
  | dialogue
deriving DecidableEq, Repr

/-- Type of game state update detected (`UpdateType` in models.py). -/
inductive UpdateType
  | noop
  | location
  | inventory
  | boss_encounter
  | game_event
  | flag_rest
  | camp_rest
  | stats
  | multiple
deriving DecidableEq, Repr

/-- An item in the player's inventory. -/
structure InventoryItem where
  name : String
  quantity : Int
deriving DecidableEq, Repr

/-- A Picto (equipable perk). -/
structure Picto where
  name : String
  character : Option String
  mastered : Bool
deriving DecidableEq, Repr

/-- Boss/enemy encounter information. -/
structure BossState where
  name : String
  hp_percentage : Rat
  is_axon : Bool
deriving DecidableEq, Repr

/-- Stats for a party member. -/
structure CharacterStats where
  name : String
  hp_percentage : Option Rat
  level : Option Int
  vitality : Option Int
  might : Option Int
  agility : Option Int
  defense : Option Int
  luck : Option Int
deriving DecidableEq, Repr

/-- Party-wide stats visible in HUD or menus. -/
structure PartyStats where
  active_characters : Option (List String)
  gradient_gauge : Option Rat
deriving DecidableEq, Repr

/-- Structured output from the LLM analyzing a screenshot (`StateUpdate`). -/
structure StateUpdate where
  update_type : UpdateType
  screen_type : ScreenType
  new_location : Option String
  inventory_items : Option (List InventoryItem)
  pictos : Option (List Picto)
  game_event : Option GameEvent
  boss : Option BossState
  flag_name : Option String
  at_camp : Option Bool
  character_stats : Option (List CharacterStats)
  party_stats : Option PartyStats
  reasoning : String
  uncertainty_notes : Option String
deriving DecidableEq, Repr

/-- Current state of the game being tracked (`GameState`). The per-member stat
table (`dict[str, CharacterStats]` in Python, insertion-ordered) is modelled
as an association list updated by `dictSet`. -/
structure GameState where
  player_location : String
  inventory : List InventoryItem
  pictos : List Picto
  current_boss : Option BossState
  last_flag : Option String
  at_camp : Bool
  party_defeats : Int
  bosses_defeated : List String
  axons_defeated : List String
  flags_discovered : List String
  active_party : List String
  character_stats : List (String × CharacterStats)
  gradient_gauge : Rat
deriving DecidableEq, Repr

/-- The default-constructed `GameState` (the Pydantic field defaults). -/
def initialGameState : GameState where
  player_location := "Unknown"
  inventory := []
  pictos := []
  current_boss := Option.none
  last_flag := Option.none
  at_camp := false
  party_defeats := 0
  bosses_defeated := []
  axons_defeated := []
  flags_discovered := []
  active_party := ["Gustave", "Maelle", "Lune"]
  character_stats := []
  gradient_gauge := 0

/-- The guarded append `if x not in l: l.append(x)` used for the three
monotonic name lists. -/
def insertIfAbsent (l : List String) (x : String) : List String :=
  if x ∈ l then l else l ++ [x]

/-- Python dict assignment `d[k] = v` on an insertion-ordered association
list: an existing key keeps its position and gets the new value, a new key is
appended at the end. -/
def dictSet (d : List (String × CharacterStats)) (k : String) (v : CharacterStats) :
    List (String × CharacterStats) :=
  match d with
  | [] => [(k, v)]
  | (k2, v2) :: rest => if k2 = k then (k, v) :: rest else (k2, v2) :: dictSet rest k v

/-- Python dict lookup `d.get(k)` on the association list. -/
def dictGet (d : List (String × CharacterStats)) (k : String) : Option CharacterStats :=
  match d with
  | [] => Option.none
  | (k2, v2) :: rest => if k2 = k then Option.some v2 else dictGet rest k

/-- The loop `for char_stat in update.character_stats:
self.character_stats[char_stat.name] = char_stat`. -/
def applyCharStats (csl : List CharacterStats) (d : List (String × CharacterStats)) :
    List (String × CharacterStats) :=
  csl.foldl (fun acc cs => dictSet acc cs.name cs) d

/-- The two gated writes inside the `update.party_stats is not None` block:
a truthy (non-`None`, non-empty) roster overwrites `active_party`, a
non-`None` gauge overwrites `gradient_gauge`. -/
def applyPartyStats (ps : PartyStats) (s : GameState) : GameState :=
  match ps.active_characters, ps.gradient_gauge with
  | Option.some ac, Option.some g =>
      if ac ≠ [] then { s with active_party := ac, gradient_gauge := g }
      else { s with gradient_gauge := g }
  | Option.some ac, Option.none =>
      if ac ≠ [] then { s with active_party := ac } else s
  | Option.none, Option.some g => { s with gradient_gauge := g }
  | Option.none, Option.none => s

/-- Location updates: `if update.new_location and
update.new_location != self.player_location`. `None` and `""` are falsy. -/
def locationStep (u : StateUpdate) (p : GameState × Bool) : GameState × Bool :=
  if u.update_type = UpdateType.location ∨ u.update_type = UpdateType.multiple then
    match u.new_location with
    | Option.some loc =>
        if loc ≠ "" ∧ loc ≠ p.1.player_location then
          ({ p.1 with player_location := loc }, true)
        else p
    | Option.none => p
  else p

/-- Inventory updates: each of the two `is not None` gated wholesale
replacements, flattened into one four-way match. -/
def inventoryStep (u : StateUpdate) (p : GameState × Bool) : GameState × Bool :=
  if u.update_type = UpdateType.inventory ∨ u.update_type = UpdateType.multiple then
    match u.inventory_items, u.pictos with
    | Option.some items, Option.some ps =>
        ({ p.1 with inventory := items, pictos := ps }, true)
    | Option.some items, Option.none => ({ p.1 with inventory := items }, true)
    | Option.none, Option.some ps => ({ p.1 with pictos := ps }, true)
    | Option.none, Option.none => p
  else p

/-- Boss encounter updates: `if update.boss is not None`. -/
def bossEncounterStep (u : StateUpdate) (p : GameState × Bool) : GameState × Bool :=
  if u.update_type = UpdateType.boss_encounter ∨ u.update_type = UpdateType.multiple then
    match u.boss with
    | Option.some b => ({ p.1 with current_boss := Option.some b }, true)
    | Option.none => p
  else p

/-- Game event updates. In the `BOSS_DEFEATED` and `FLAG_DISCOVERED` branches
`changed = True` is set unconditionally, outside the inner guards. -/
def gameEventStep (u : StateUpdate) (p : GameState × Bool) : GameState × Bool :=
  if u.update_type = UpdateType.game_event ∨ u.update_type = UpdateType.multiple then
    match u.game_event with
    | Option.some GameEvent.none => p
    | Option.some GameEvent.party_defeated =>
        ({ p.1 with party_defeats := p.1.party_defeats + 1, current_boss := Option.none },
          true)
    | Option.some GameEvent.boss_defeated =>
        match p.1.current_boss with
        | Option.some b =>
            ({ p.1 with
                bosses_defeated := insertIfAbsent p.1.bosses_defeated b.name,
                axons_defeated :=
                  if b.is_axon then insertIfAbsent p.1.axons_defeated b.name
                  else p.1.axons_defeated,
                current_boss := Option.none }, true)
        | Option.none => (p.1, true)
    | Option.some GameEvent.flag_discovered =>
        match u.flag_name with
        | Option.some fn =>
            if fn ≠ "" then
              ({ p.1 with flags_discovered := insertIfAbsent p.1.flags_discovered fn },
                true)
            else (p.1, true)
        | Option.none => (p.1, true)
    | Option.none => p
  else p

/-- Flag rest updates: `if update.flag_name:` (truthy: non-`None`, non-empty). -/
def flagRestStep (u : StateUpdate) (p : GameState × Bool) : GameState × Bool :=
  if u.update_type = UpdateType.flag_rest ∨ u.update_type = UpdateType.multiple then
    match u.flag_name with
    | Option.some fn =>
        if fn ≠ "" then
          ({ p.1 with
              last_flag := Option.some fn,
              flags_discovered := insertIfAbsent p.1.flags_discovered fn,
              current_boss := Option.none,
              at_camp := false }, true)
        else p
    | Option.none => p
  else p

/-- Camp rest updates: `if update.at_camp is not None` (explicit `False`
counts). -/
def campRestStep (u : StateUpdate) (p : GameState × Bool) : GameState × Bool :=
  if u.update_type = UpdateType.camp_rest ∨ u.update_type = UpdateType.multiple then
    match u.at_camp with
    | Option.some b => ({ p.1 with at_camp := b, current_boss := Option.none }, true)
    | Option.none => p
  else p

/-- Stats updates: the two `is not None` gated blocks, flattened. -/
def statsStep (u : StateUpdate) (p : GameState × Bool) : GameState × Bool :=
  if u.update_type = UpdateType.stats ∨ u.update_type = UpdateType.multiple then
    match u.character_stats, u.party_stats with
    | Option.some csl, Option.some ps =>
        (applyPartyStats ps
          { p.1 with character_stats := applyCharStats csl p.1.character_stats }, true)
    | Option.some csl, Option.none =>
        ({ p.1 with character_stats := applyCharStats csl p.1.character_stats }, true)
    | Option.none, Option.some ps => (applyPartyStats ps p.1, true)
    | Option.none, Option.none => p
  else p

/-- `GameState.apply_update`: early exit on `NOOP`, then the seven guarded
category blocks in source order. Returns the new state paired with the
`changed` flag. -/
def GameState.apply_update (s : GameState) (u : StateUpdate) : GameState × Bool :=
  if u.update_type = UpdateType.noop then (s, false)
  else
    statsStep u (campRestStep u (flagRestStep u (gameEventStep u
      (bossEncounterStep u (inventoryStep u (locationStep u (s, false)))))))

/-- The three monotonic name lists of `b` extend those of `a`: each old list is
a prefix of the new one, and duplicate-freedom is preserved. -/
def listsExtend (a b : GameState) : Prop :=
  (a.bosses_defeated <+: b.bosses_defeated)
  ∧ (a.bosses_defeated.Nodup → b.bosses_defeated.Nodup)
  ∧ (a.axons_defeated <+: b.axons_defeated)
  ∧ (a.axons_defeated.Nodup → b.axons_defeated.Nodup)
  ∧ (a.flags_discovered <+: b.flags_discovered)
  ∧ (a.flags_discovered.Nodup → b.flags_discovered.Nodup)

/-- What `gameEventStep` does to the discovered-flag list, as a function of
the observation alone. -/
def closedFlags (u : StateUpdate) (l : List String) : List String :=
  if (u.update_type = UpdateType.game_event ∨ u.update_type = UpdateType.multiple)
      ∧ u.game_event = Option.some GameEvent.flag_discovered then
    match u.flag_name with
    | Option.some fn => if fn ≠ "" then insertIfAbsent l fn else l
    | Option.none => l
  else l

/-- A fully absent observation: `noop` kind, every optional payload `None`. -/
def noopUpdate : StateUpdate where
  update_type := UpdateType.noop
  screen_type := ScreenType.gameplay
  new_location := Option.none
  inventory_items := Option.none
  pictos := Option.none
  game_event := Option.none
  boss := Option.none
  flag_name := Option.none
  at_camp := Option.none
  character_stats := Option.none
  party_stats := Option.none
  reasoning := ""
  uncertainty_notes := Option.none

/-- A `location` observation whose payload is the empty string: non-null but
falsy under Python truthiness. -/
def emptyLocUpdate : StateUpdate :=
  { noopUpdate with
      update_type := UpdateType.location, new_location := Option.some ("") }

/-- A `location` observation reporting a genuinely new area. -/
def locUpdate : StateUpdate :=
  { noopUpdate with
      update_type := UpdateType.location, new_location := Option.some ("Lumiere") }

/-- An `inventory` observation carrying a one-item list. -/
def invUpdate : StateUpdate :=
  { noopUpdate with
      update_type := UpdateType.inventory,
      inventory_items := Option.some [{ name := "Tint", quantity := 1 }] }

/-- A record that already holds a different inventory. -/
def gsInv : GameState :=
  { initialGameState with inventory := [{ name := "Potion", quantity := 2 }] }

/-- A `game_event` observation reporting a discovered flag with a null name. -/
def nullFlagEventUpdate : StateUpdate :=
  { noopUpdate with
      update_type := UpdateType.game_event,
      game_event := Option.some GameEvent.flag_discovered }

/-- An elevated-threat (Axon) encounter named X. -/
def bossX : BossState := { name := "X", hp_percentage := 40, is_axon := true }

/-- A record currently fighting the Axon X. -/
def gsBoss : GameState := { initialGameState with current_boss := Option.some bossX }

/-- A `game_event` observation tagged `boss_defeated`. -/
def bossDefeatedUpdate : StateUpdate :=
  { noopUpdate with
      update_type := UpdateType.game_event,
      game_event := Option.some GameEvent.boss_defeated }

/-- A `multiple` observation resting at a flag while also carrying an
`at_camp = true` payload. -/
def flagCampUpdate : StateUpdate :=
  { noopUpdate with
      update_type := UpdateType.multiple,
      flag_name := Option.some ("Meadow Flag"),
      at_camp := Option.some true }

/-- A pure `flag_rest` observation. -/
def flagRestUpdate : StateUpdate :=
  { noopUpdate with
      update_type := UpdateType.flag_rest, flag_name := Option.some ("Meadow Flag") }

/-- A pure `camp_rest` observation with `at_camp = true`. -/
def campUpdate : StateUpdate :=
  { noopUpdate with
      update_type := UpdateType.camp_rest, at_camp := Option.some true }

/-- A `stats` observation whose aggregate payload has a non-null but empty
roster and a null gauge. -/
def emptyRosterUpdate : StateUpdate :=
  { noopUpdate with
      update_type := UpdateType.stats,
      party_stats := Option.some
        { active_characters := Option.some [], gradient_gauge := Option.none } }

/-- Maelle's prior stat entry. -/
def statMaelle0 : CharacterStats :=
  { name := "Maelle", hp_percentage := Option.some 50, level := Option.none,
    vitality := Option.none, might := Option.none, agility := Option.none,
    defense := Option.none, luck := Option.none }

/-- Lune's prior stat entry. -/
def statLune0 : CharacterStats :=
  { name := "Lune", hp_percentage := Option.some 80, level := Option.none,
    vitality := Option.none, might := Option.none, agility := Option.none,
    defense := Option.none, luck := Option.none }

/-- Maelle's updated stat entry with hp 10. -/
def statMaelle : CharacterStats :=
  { name := "Maelle", hp_percentage := Option.some 10, level := Option.none,
    vitality := Option.none, might := Option.none, agility := Option.none,
    defense := Option.none, luck := Option.none }

/-- A record holding stat entries for Maelle and Lune. -/
def gsStats : GameState :=
  { initialGameState with
      character_stats := [("Maelle", statMaelle0), ("Lune", statLune0)] }

/-- A `stats` observation updating only Maelle. -/
def statsAUpdate : StateUpdate :=
  { noopUpdate with
      update_type := UpdateType.stats, character_stats := Option.some [statMaelle] }

/-- A `multiple` observation carrying a new location and a discovered flag. -/
def compositeUpdate : StateUpdate :=
  { noopUpdate with
      update_type := UpdateType.multiple,
      new_location := Option.some ("Old Lumiere"),
      game_event := Option.some GameEvent.flag_discovered,
      flag_name := Option.some ("Meadow Flag") }

/-- A `game_event` observation reporting a discovered flag by name. -/
def flagDiscUpdate : StateUpdate :=
  { noopUpdate with
      update_type := UpdateType.game_event,
      game_event := Option.some GameEvent.flag_discovered,
      flag_name := Option.some ("Meadow Flag") }

/-! ### Basic lemmas about the guarded append `insertIfAbsent` -/

theorem insertIfAbsent_of_mem {l : List String} {x : String} (h : x ∈ l) :
    insertIfAbsent l x = l := by
  unfold insertIfAbsent; rw [if_pos h]

theorem mem_insertIfAbsent_self (l : List String) (x : String) :
    x ∈ insertIfAbsent l x := by
  unfold insertIfAbsent; split
  · assumption
  · simp

theorem mem_insertIfAbsent_of_mem {l : List String} {y : String} (x : String) (h : y ∈ l) :
    y ∈ insertIfAbsent l x := by
  unfold insertIfAbsent; split
  · exact h
  · simp [h]

theorem insertIfAbsent_idem (l : List String) (x : String) :
    insertIfAbsent (insertIfAbsent l x) x = insertIfAbsent l x :=
  insertIfAbsent_of_mem (mem_insertIfAbsent_self l x)

theorem prefix_insertIfAbsent (l : List String) (x : String) :
    l <+: insertIfAbsent l x := by
  unfold insertIfAbsent; split
  · exact List.prefix_refl l
  · exact ⟨[x], rfl⟩

theorem nodup_insertIfAbsent {l : List String} (x : String) (h : l.Nodup) :
    (insertIfAbsent l x).Nodup := by
  unfold insertIfAbsent; split
  · exact h
  · case _ hx => simp [List.nodup_append, h, hx]

/-! ### Each category step is the identity when its guard is off -/

theorem locationStep_skip (u : StateUpdate) (p : GameState × Bool)
    (h : ¬(u.update_type = UpdateType.location ∨ u.update_type = UpdateType.multiple)) :
    locationStep u p = p := by
  unfold locationStep; rw [if_neg h]

theorem inventoryStep_skip (u : StateUpdate) (p : GameState × Bool)
    (h : ¬(u.update_type = UpdateType.inventory ∨ u.update_type = UpdateType.multiple)) :
    inventoryStep u p = p := by
  unfold inventoryStep; rw [if_neg h]

theorem bossEncounterStep_skip (u : StateUpdate) (p : GameState × Bool)
    (h : ¬(u.update_type = UpdateType.boss_encounter ∨ u.update_type = UpdateType.multiple)) :
    bossEncounterStep u p = p := by
  unfold bossEncounterStep; rw [if_neg h]

theorem gameEventStep_skip (u : StateUpdate) (p : GameState × Bool)
    (h : ¬(u.update_type = UpdateType.game_event ∨ u.update_type = UpdateType.multiple)) :
    gameEventStep u p = p := by
  unfold gameEventStep; rw [if_neg h]

theorem flagRestStep_skip (u : StateUpdate) (p : GameState × Bool)
    (h : ¬(u.update_type = UpdateType.flag_rest ∨ u.update_type = UpdateType.multiple)) :
    flagRestStep u p = p := by
  unfold flagRestStep; rw [if_neg h]

theorem campRestStep_skip (u : StateUpdate) (p : GameState × Bool)
    (h : ¬(u.update_type = UpdateType.camp_rest ∨ u.update_type = UpdateType.multiple)) :
    campRestStep u p = p := by
  unfold campRestStep; rw [if_neg h]

theorem statsStep_skip (u : StateUpdate) (p : GameState × Bool)
    (h : ¬(u.update_type = UpdateType.stats ∨ u.update_type = UpdateType.multiple)) :
    statsStep u p = p := by
  unfold statsStep; rw [if_neg h]

/-! ### The changed flag is monotone through every step -/

theorem locationStep_changed (u : StateUpdate) (p : GameState × Bool) (h : p.2 = true) :
    (locationStep u p).2 = true := by
  unfold locationStep; repeat' split
  all_goals first | rfl | exact h

theorem inventoryStep_changed (u : StateUpdate) (p : GameState × Bool) (h : p.2 = true) :
    (inventoryStep u p).2 = true := by
  unfold inventoryStep; repeat' split
  all_goals first | rfl | exact h

theorem bossEncounterStep_changed (u : StateUpdate) (p : GameState × Bool) (h : p.2 = true) :
    (bossEncounterStep u p).2 = true := by
  unfold bossEncounterStep; repeat' split
  all_goals first | rfl | exact h

theorem gameEventStep_changed (u : StateUpdate) (p : GameState × Bool) (h : p.2 = true) :
    (gameEventStep u p).2 = true := by
  unfold gameEventStep; repeat' split
  all_goals first | rfl | exact h

theorem flagRestStep_changed (u : StateUpdate) (p : GameState × Bool) (h : p.2 = true) :
    (flagRestStep u p).2 = true := by
  unfold flagRestStep; repeat' split
  all_goals first | rfl | exact h

theorem campRestStep_changed (u : StateUpdate) (p : GameState × Bool) (h : p.2 = true) :
    (campRestStep u p).2 = true := by
  unfold campRestStep; repeat' split
  all_goals first | rfl | exact h

theorem statsStep_changed (u : StateUpdate) (p : GameState × Bool) (h : p.2 = true) :
    (statsStep u p).2 = true := by
  unfold statsStep; repeat' split
  all_goals first | rfl | exact h

/-! ### Frame lemmas: fields a step never writes -/

theorem locationStep_inventory (u : StateUpdate) (p : GameState × Bool) :
    ((locationStep u p).1).inventory = p.1.inventory := by
  unfold locationStep; repeat' split
  all_goals rfl

theorem locationStep_pictos (u : StateUpdate) (p : GameState × Bool) :
    ((locationStep u p).1).pictos = p.1.pictos := by
  unfold locationStep; repeat' split
  all_goals rfl

theorem locationStep_bosses_defeated (u : StateUpdate) (p : GameState × Bool) :
    ((locationStep u p).1).bosses_defeated = p.1.bosses_defeated := by
  unfold locationStep; repeat' split
  all_goals rfl

theorem locationStep_axons_defeated (u : StateUpdate) (p : GameState × Bool) :
    ((locationStep u p).1).axons_defeated = p.1.axons_defeated := by
  unfold locationStep; repeat' split
  all_goals rfl

theorem locationStep_flags_discovered (u : StateUpdate) (p : GameState × Bool) :
    ((locationStep u p).1).flags_discovered = p.1.flags_discovered := by
  unfold locationStep; repeat' split
  all_goals rfl

theorem locationStep_character_stats (u : StateUpdate) (p : GameState × Bool) :
    ((locationStep u p).1).character_stats = p.1.character_stats := by
  unfold locationStep; repeat' split
  all_goals rfl

theorem locationStep_active_party (u : StateUpdate) (p : GameState × Bool) :
    ((locationStep u p).1).active_party = p.1.active_party := by
  unfold locationStep; repeat' split
  all_goals rfl

theorem locationStep_gradient_gauge (u : StateUpdate) (p : GameState × Bool) :
    ((locationStep u p).1).gradient_gauge = p.1.gradient_gauge := by
  unfold locationStep; repeat' split
  all_goals rfl

theorem inventoryStep_player_location (u : StateUpdate) (p : GameState × Bool) :
    ((inventoryStep u p).1).player_location = p.1.player_location := by
  unfold inventoryStep; repeat' split
  all_goals rfl

theorem inventoryStep_bosses_defeated (u : StateUpdate) (p : GameState × Bool) :
    ((inventoryStep u p).1).bosses_defeated = p.1.bosses_defeated := by
  unfold inventoryStep; repeat' split
  all_goals rfl

theorem inventoryStep_axons_defeated (u : StateUpdate) (p : GameState × Bool) :
    ((inventoryStep u p).1).axons_defeated = p.1.axons_defeated := by
  unfold inventoryStep; repeat' split
  all_goals rfl

theorem inventoryStep_flags_discovered (u : StateUpdate) (p : GameState × Bool) :
    ((inventoryStep u p).1).flags_discovered = p.1.flags_discovered := by
  unfold inventoryStep; repeat' split
  all_goals rfl

theorem inventoryStep_character_stats (u : StateUpdate) (p : GameState × Bool) :
    ((inventoryStep u p).1).character_stats = p.1.character_stats := by
  unfold inventoryStep; repeat' split
  all_goals rfl

theorem inventoryStep_active_party (u : StateUpdate) (p : GameState × Bool) :
    ((inventoryStep u p).1).active_party = p.1.active_party := by
  unfold inventoryStep; repeat' split
  all_goals rfl

theorem inventoryStep_gradient_gauge (u : StateUpdate) (p : GameState × Bool) :
    ((inventoryStep u p).1).gradient_gauge = p.1.gradient_gauge := by
  unfold inventoryStep; repeat' split
  all_goals rfl

theorem bossEncounterStep_player_location (u : StateUpdate) (p : GameState × Bool) :
    ((bossEncounterStep u p).1).player_location = p.1.player_location := by
  unfold bossEncounterStep; repeat' split
  all_goals rfl

theorem bossEncounterStep_inventory (u : StateUpdate) (p : GameState × Bool) :
    ((bossEncounterStep u p).1).inventory = p.1.inventory := by
  unfold bossEncounterStep; repeat' split
  all_goals rfl

theorem bossEncounterStep_pictos (u : StateUpdate) (p : GameState × Bool) :
    ((bossEncounterStep u p).1).pictos = p.1.pictos := by
  unfold bossEncounterStep; repeat' split
  all_goals rfl

theorem bossEncounterStep_bosses_defeated (u : StateUpdate) (p : GameState × Bool) :
    ((bossEncounterStep u p).1).bosses_defeated = p.1.bosses_defeated := by
  unfold bossEncounterStep; repeat' split
  all_goals rfl

theorem bossEncounterStep_axons_defeated (u : StateUpdate) (p : GameState × Bool) :
    ((bossEncounterStep u p).1).axons_defeated = p.1.axons_defeated := by
  unfold bossEncounterStep; repeat' split
  all_goals rfl

theorem bossEncounterStep_flags_discovered (u : StateUpdate) (p : GameState × Bool) :
    ((bossEncounterStep u p).1).flags_discovered = p.1.flags_discovered := by
  unfold bossEncounterStep; repeat' split
  all_goals rfl

theorem bossEncounterStep_character_stats (u : StateUpdate) (p : GameState × Bool) :
    ((bossEncounterStep u p).1).character_stats = p.1.character_stats := by
  unfold bossEncounterStep; repeat' split
  all_goals rfl

theorem bossEncounterStep_active_party (u : StateUpdate) (p : GameState × Bool) :
    ((bossEncounterStep u p).1).active_party = p.1.active_party := by
  unfold bossEncounterStep; repeat' split
  all_goals rfl

theorem bossEncounterStep_gradient_gauge (u : StateUpdate) (p : GameState × Bool) :
    ((bossEncounterStep u p).1).gradient_gauge = p.1.gradient_gauge := by
  unfold bossEncounterStep; repeat' split
  all_goals rfl

theorem gameEventStep_player_location (u : StateUpdate) (p : GameState × Bool) :
    ((gameEventStep u p).1).player_location = p.1.player_location := by
  unfold gameEventStep; repeat' split
  all_goals rfl

theorem gameEventStep_inventory (u : StateUpdate) (p : GameState × Bool) :
    ((gameEventStep u p).1).inventory = p.1.inventory := by
  unfold gameEventStep; repeat' split
  all_goals rfl

theorem gameEventStep_pictos (u : StateUpdate) (p : GameState × Bool) :
    ((gameEventStep u p).1).pictos = p.1.pictos := by
  unfold gameEventStep; repeat' split
  all_goals rfl

theorem gameEventStep_character_stats (u : StateUpdate) (p : GameState × Bool) :
    ((gameEventStep u p).1).character_stats = p.1.character_stats := by
  unfold gameEventStep; repeat' split
  all_goals rfl

theorem gameEventStep_active_party (u : StateUpdate) (p : GameState × Bool) :
    ((gameEventStep u p).1).active_party = p.1.active_party := by
  unfold gameEventStep; repeat' split
  all_goals rfl

theorem gameEventStep_gradient_gauge (u : StateUpdate) (p : GameState × Bool) :
    ((gameEventStep u p).1).gradient_gauge = p.1.gradient_gauge := by
  unfold gameEventStep; repeat' split
  all_goals rfl

theorem flagRestStep_player_location (u : StateUpdate) (p : GameState × Bool) :
    ((flagRestStep u p).1).player_location = p.1.player_location := by
  unfold flagRestStep; repeat' split
  all_goals rfl

theorem flagRestStep_inventory (u : StateUpdate) (p : GameState × Bool) :
    ((flagRestStep u p).1).inventory = p.1.inventory := by
  unfold flagRestStep; repeat' split
  all_goals rfl

theorem flagRestStep_pictos (u : StateUpdate) (p : GameState × Bool) :
    ((flagRestStep u p).1).pictos = p.1.pictos := by
  unfold flagRestStep; repeat' split
  all_goals rfl

theorem flagRestStep_bosses_defeated (u : StateUpdate) (p : GameState × Bool) :
    ((flagRestStep u p).1).bosses_defeated = p.1.bosses_defeated := by
  unfold flagRestStep; repeat' split
  all_goals rfl

theorem flagRestStep_axons_defeated (u : StateUpdate) (p : GameState × Bool) :
    ((flagRestStep u p).1).axons_defeated = p.1.axons_defeated := by
  unfold flagRestStep; repeat' split
  all_goals rfl

theorem flagRestStep_character_stats (u : StateUpdate) (p : GameState × Bool) :
    ((flagRestStep u p).1).character_stats = p.1.character_stats := by
  unfold flagRestStep; repeat' split
  all_goals rfl

theorem flagRestStep_active_party (u : StateUpdate) (p : GameState × Bool) :
    ((flagRestStep u p).1).active_party = p.1.active_party := by
  unfold flagRestStep; repeat' split
  all_goals rfl

theorem flagRestStep_gradient_gauge (u : StateUpdate) (p : GameState × Bool) :
    ((flagRestStep u p).1).gradient_gauge = p.1.gradient_gauge := by
  unfold flagRestStep; repeat' split
  all_goals rfl

theorem campRestStep_player_location (u : StateUpdate) (p : GameState × Bool) :
    ((campRestStep u p).1).player_location = p.1.player_location := by
  unfold campRestStep; repeat' split
  all_goals rfl

theorem campRestStep_inventory (u : StateUpdate) (p : GameState × Bool) :
    ((campRestStep u p).1).inventory = p.1.inventory := by
  unfold campRestStep; repeat' split
  all_goals rfl

theorem campRestStep_pictos (u : StateUpdate) (p : GameState × Bool) :
    ((campRestStep u p).1).pictos = p.1.pictos := by
  unfold campRestStep; repeat' split
  all_goals rfl

theorem campRestStep_last_flag (u : StateUpdate) (p : GameState × Bool) :
    ((campRestStep u p).1).last_flag = p.1.last_flag := by
  unfold campRestStep; repeat' split
  all_goals rfl

theorem campRestStep_bosses_defeated (u : StateUpdate) (p : GameState × Bool) :
    ((campRestStep u p).1).bosses_defeated = p.1.bosses_defeated := by
  unfold campRestStep; repeat' split
  all_goals rfl

theorem campRestStep_axons_defeated (u : StateUpdate) (p : GameState × Bool) :
    ((campRestStep u p).1).axons_defeated = p.1.axons_defeated := by
  unfold campRestStep; repeat' split
  all_goals rfl

theorem campRestStep_flags_discovered (u : StateUpdate) (p : GameState × Bool) :
    ((campRestStep u p).1).flags_discovered = p.1.flags_discovered := by
  unfold campRestStep; repeat' split
  all_goals rfl

theorem campRestStep_character_stats (u : StateUpdate) (p : GameState × Bool) :
    ((campRestStep u p).1).character_stats = p.1.character_stats := by
  unfold campRestStep; repeat' split
  all_goals rfl

theorem campRestStep_active_party (u : StateUpdate) (p : GameState × Bool) :
    ((campRestStep u p).1).active_party = p.1.active_party := by
  unfold campRestStep; repeat' split
  all_goals rfl

theorem campRestStep_gradient_gauge (u : StateUpdate) (p : GameState × Bool) :
    ((campRestStep u p).1).gradient_gauge = p.1.gradient_gauge := by
  unfold campRestStep; repeat' split
  all_goals rfl

theorem campRestStep_boss_none (u : StateUpdate) (p : GameState × Bool)
    (h : p.1.current_boss = Option.none) :
    ((campRestStep u p).1).current_boss = Option.none := by
  unfold campRestStep; repeat' split
  all_goals first | rfl | exact h

theorem campRestStep_at_camp_none (u : StateUpdate) (p : GameState × Bool)
    (h : u.at_camp = Option.none) :
    ((campRestStep u p).1).at_camp = p.1.at_camp := by
  unfold campRestStep; repeat' split
  all_goals simp_all

theorem statsStep_player_location (u : StateUpdate) (p : GameState × Bool) :
    ((statsStep u p).1).player_location = p.1.player_location := by
  unfold statsStep applyPartyStats; repeat' split
  all_goals rfl

theorem statsStep_inventory (u : StateUpdate) (p : GameState × Bool) :
    ((statsStep u p).1).inventory = p.1.inventory := by
  unfold statsStep applyPartyStats; repeat' split
  all_goals rfl

theorem statsStep_pictos (u : StateUpdate) (p : GameState × Bool) :
    ((statsStep u p).1).pictos = p.1.pictos := by
  unfold statsStep applyPartyStats; repeat' split
  all_goals rfl

theorem statsStep_current_boss (u : StateUpdate) (p : GameState × Bool) :
    ((statsStep u p).1).current_boss = p.1.current_boss := by
  unfold statsStep applyPartyStats; repeat' split
  all_goals rfl

theorem statsStep_last_flag (u : StateUpdate) (p : GameState × Bool) :
    ((statsStep u p).1).last_flag = p.1.last_flag := by
  unfold statsStep applyPartyStats; repeat' split
  all_goals rfl

theorem statsStep_at_camp (u : StateUpdate) (p : GameState × Bool) :
    ((statsStep u p).1).at_camp = p.1.at_camp := by
  unfold statsStep applyPartyStats; repeat' split
  all_goals rfl

theorem statsStep_bosses_defeated (u : StateUpdate) (p : GameState × Bool) :
    ((statsStep u p).1).bosses_defeated = p.1.bosses_defeated := by
  unfold statsStep applyPartyStats; repeat' split
  all_goals rfl

theorem statsStep_axons_defeated (u : StateUpdate) (p : GameState × Bool) :
    ((statsStep u p).1).axons_defeated = p.1.axons_defeated := by
  unfold statsStep applyPartyStats; repeat' split
  all_goals rfl

theorem statsStep_flags_discovered (u : StateUpdate) (p : GameState × Bool) :
    ((statsStep u p).1).flags_discovered = p.1.flags_discovered := by
  unfold statsStep applyPartyStats; repeat' split
  all_goals rfl

/-! ### Association-list (Python dict) lemmas -/

theorem dictGet_dictSet_self (d : List (String × CharacterStats)) (k : String)
    (v : CharacterStats) : dictGet (dictSet d k v) k = Option.some v := by
  induction d with
  | nil => simp [dictSet, dictGet]
  | cons hd tl ih =>
      obtain ⟨k2, v2⟩ := hd
      by_cases h : k2 = k
      · simp [dictSet, dictGet, h]
      · simp [dictSet, dictGet, h, ih]

theorem dictGet_dictSet_ne (d : List (String × CharacterStats)) {k m : String}
    (v : CharacterStats) (h : m ≠ k) : dictGet (dictSet d k v) m = dictGet d m := by
  induction d with
  | nil => simp [dictSet, dictGet, Ne.symm h]
  | cons hd tl ih =>
      obtain ⟨k2, v2⟩ := hd
      by_cases h2 : k2 = k
      · subst h2
        simp [dictSet, dictGet, Ne.symm h]
      · simp only [dictSet, if_neg h2, dictGet]
        by_cases h3 : k2 = m
        · simp [h3]
        · simp [h3, ih]

theorem applyCharStats_get_of_not_mem (csl : List CharacterStats)
    (d : List (String × CharacterStats)) (m : String)
    (h : ∀ cs ∈ csl, cs.name ≠ m) :
    dictGet (applyCharStats csl d) m = dictGet d m := by
  induction csl generalizing d with
  | nil => rfl
  | cons c rest ih =>
      have hc : c.name ≠ m := h c (List.mem_cons_self c rest)
      have hrest : ∀ cs ∈ rest, cs.name ≠ m := fun cs hcs => h cs (List.mem_cons_of_mem c hcs)
      calc dictGet (applyCharStats rest (dictSet d c.name c)) m
          = dictGet (dictSet d c.name c) m := ih _ hrest
        _ = dictGet d m := dictGet_dictSet_ne _ _ (fun he => hc he.symm)

theorem applyCharStats_get_self (csl : List CharacterStats)
    (d : List (String × CharacterStats)) (cs : CharacterStats)
    (hmem : cs ∈ csl) (huniq : ∀ cs2 ∈ csl, cs2.name = cs.name → cs2 = cs) :
    dictGet (applyCharStats csl d) cs.name = Option.some cs := by
  induction csl generalizing d with
  | nil => cases hmem
  | cons c rest ih =>
      by_cases hr : ∃ cs2 ∈ rest, cs2.name = cs.name
      · obtain ⟨cs2, h2mem, h2name⟩ := hr
        have he : cs2 = cs := huniq cs2 (List.mem_cons_of_mem c h2mem) h2name
        subst he
        exact ih (dictSet d c.name c) h2mem
          (fun x hx hn => huniq x (List.mem_cons_of_mem c hx) hn)
      · have hcs_c : cs = c := by
          rcases List.mem_cons.mp hmem with h | h
          · exact h
          · exact absurd ⟨cs, h, rfl⟩ hr
        have hnone : ∀ x ∈ rest, x.name ≠ cs.name := fun x hx hn => hr ⟨x, hx, hn⟩
        have : dictGet (applyCharStats rest (dictSet d c.name c)) cs.name
            = dictGet (dictSet d c.name c) cs.name :=
          applyCharStats_get_of_not_mem rest _ cs.name hnone
        rw [show applyCharStats (c :: rest) d = applyCharStats rest (dictSet d c.name c)
              from rfl, this, hcs_c]
        exact dictGet_dictSet_self d c.name c

/-! ### `applyPartyStats` lemmas -/

theorem applyPartyStats_character_stats (ps : PartyStats) (s : GameState) :
    (applyPartyStats ps s).character_stats = s.character_stats := by
  unfold applyPartyStats; repeat' split
  all_goals rfl

theorem applyPartyStats_active_some (ps : PartyStats) (s : GameState) (ac : List String)
    (hac : ps.active_characters = Option.some ac) (hne : ac ≠ []) :
    (applyPartyStats ps s).active_party = ac := by
  unfold applyPartyStats; repeat' split
  all_goals simp_all

theorem applyPartyStats_active_stable (ps : PartyStats) (s : GameState)
    (h : ps.active_characters = Option.none ∨ ps.active_characters = Option.some []) :
    (applyPartyStats ps s).active_party = s.active_party := by
  unfold applyPartyStats; repeat' split
  all_goals simp_all

theorem applyPartyStats_gauge_some (ps : PartyStats) (s : GameState) (g : Rat)
    (hg : ps.gradient_gauge = Option.some g) :
    (applyPartyStats ps s).gradient_gauge = g := by
  unfold applyPartyStats; repeat' split
  all_goals simp_all

theorem applyPartyStats_gauge_none (ps : PartyStats) (s : GameState)
    (hg : ps.gradient_gauge = Option.none) :
    (applyPartyStats ps s).gradient_gauge = s.gradient_gauge := by
  unfold applyPartyStats; repeat' split
  all_goals simp_all

/-! ### Monotonic growth of the three name lists -/

theorem listsExtend_trans {a b c : GameState} (h1 : listsExtend a b)
    (h2 : listsExtend b c) : listsExtend a c := by
  obtain ⟨p1, n1, p2, n2, p3, n3⟩ := h1
  obtain ⟨q1, m1, q2, m2, q3, m3⟩ := h2
  exact ⟨p1.trans q1, fun h => m1 (n1 h), p2.trans q2, fun h => m2 (n2 h),
    p3.trans q3, fun h => m3 (n3 h)⟩

theorem listsExtend_of_eq {a b : GameState}
    (h1 : b.bosses_defeated = a.bosses_defeated)
    (h2 : b.axons_defeated = a.axons_defeated)
    (h3 : b.flags_discovered = a.flags_discovered) : listsExtend a b := by
  unfold listsExtend
  rw [h1, h2, h3]
  exact ⟨List.prefix_refl _, id, List.prefix_refl _, id, List.prefix_refl _, id⟩

theorem locationStep_listsExtend (u : StateUpdate) (p : GameState × Bool) :
    listsExtend p.1 (locationStep u p).1 :=
  listsExtend_of_eq (locationStep_bosses_defeated u p) (locationStep_axons_defeated u p)
    (locationStep_flags_discovered u p)

theorem inventoryStep_listsExtend (u : StateUpdate) (p : GameState × Bool) :
    listsExtend p.1 (inventoryStep u p).1 :=
  listsExtend_of_eq (inventoryStep_bosses_defeated u p) (inventoryStep_axons_defeated u p)
    (inventoryStep_flags_discovered u p)

theorem bossEncounterStep_listsExtend (u : StateUpdate) (p : GameState × Bool) :
    listsExtend p.1 (bossEncounterStep u p).1 :=
  listsExtend_of_eq (bossEncounterStep_bosses_defeated u p)
    (bossEncounterStep_axons_defeated u p) (bossEncounterStep_flags_discovered u p)

theorem campRestStep_listsExtend (u : StateUpdate) (p : GameState × Bool) :
    listsExtend p.1 (campRestStep u p).1 :=
  listsExtend_of_eq (campRestStep_bosses_defeated u p) (campRestStep_axons_defeated u p)
    (campRestStep_flags_discovered u p)

theorem statsStep_listsExtend (u : StateUpdate) (p : GameState × Bool) :
    listsExtend p.1 (statsStep u p).1 :=
  listsExtend_of_eq (statsStep_bosses_defeated u p) (statsStep_axons_defeated u p)
    (statsStep_flags_discovered u p)

theorem gameEventStep_listsExtend (u : StateUpdate) (p : GameState × Bool) :
    listsExtend p.1 (gameEventStep u p).1 := by
  unfold gameEventStep; repeat' split
  all_goals first
    | exact ⟨List.prefix_refl _, id, List.prefix_refl _, id, List.prefix_refl _, id⟩
    | exact ⟨prefix_insertIfAbsent _ _, nodup_insertIfAbsent _, prefix_insertIfAbsent _ _,
        nodup_insertIfAbsent _, List.prefix_refl _, id⟩
    | exact ⟨prefix_insertIfAbsent _ _, nodup_insertIfAbsent _, List.prefix_refl _, id,
        List.prefix_refl _, id⟩
    | exact ⟨List.prefix_refl _, id, List.prefix_refl _, id, prefix_insertIfAbsent _ _,
        nodup_insertIfAbsent _⟩

theorem flagRestStep_listsExtend (u : StateUpdate) (p : GameState × Bool) :
    listsExtend p.1 (flagRestStep u p).1 := by
  unfold flagRestStep; repeat' split
  all_goals first
    | exact ⟨List.prefix_refl _, id, List.prefix_refl _, id, List.prefix_refl _, id⟩
    | exact ⟨List.prefix_refl _, id, List.prefix_refl _, id, prefix_insertIfAbsent _ _,
        nodup_insertIfAbsent _⟩

theorem apply_update_listsExtend (s : GameState) (u : StateUpdate) :
    listsExtend s (GameState.apply_update s u).1 := by
  unfold GameState.apply_update
  split
  · exact ⟨List.prefix_refl _, id, List.prefix_refl _, id, List.prefix_refl _, id⟩
  · exact listsExtend_trans (listsExtend_trans (listsExtend_trans (listsExtend_trans
      (listsExtend_trans (listsExtend_trans (locationStep_listsExtend u (s, false))
        (inventoryStep_listsExtend u _)) (bossEncounterStep_listsExtend u _))
      (gameEventStep_listsExtend u _)) (flagRestStep_listsExtend u _))
      (campRestStep_listsExtend u _)) (statsStep_listsExtend u _)

/-! ### Firing behaviour of individual steps -/

theorem locationStep_fire (u : StateUpdate) (p : GameState × Bool) (loc : String)
    (hty : u.update_type = UpdateType.location ∨ u.update_type = UpdateType.multiple)
    (hl : u.new_location = Option.some loc) (hne : loc ≠ "")
    (hdiff : loc ≠ p.1.player_location) :
    locationStep u p = ({ p.1 with player_location := loc }, true) := by
  unfold locationStep
  rw [if_pos hty, hl]
  exact if_pos ⟨hne, hdiff⟩

theorem locationStep_same (u : StateUpdate) (p : GameState × Bool) (loc : String)
    (hl : u.new_location = Option.some loc) (heq : loc = p.1.player_location) :
    locationStep u p = p := by
  unfold locationStep
  split
  · rw [hl]
    exact if_neg (by simp [heq])
  · rfl

theorem inventoryStep_inventory_some (u : StateUpdate) (p : GameState × Bool)
    (items : List InventoryItem)
    (hty : u.update_type = UpdateType.inventory ∨ u.update_type = UpdateType.multiple)
    (h : u.inventory_items = Option.some items) :
    ((inventoryStep u p).1).inventory = items := by
  unfold inventoryStep
  rw [if_pos hty]
  repeat' split
  all_goals simp_all

theorem inventoryStep_pictos_some (u : StateUpdate) (p : GameState × Bool)
    (ps : List Picto)
    (hty : u.update_type = UpdateType.inventory ∨ u.update_type = UpdateType.multiple)
    (h : u.pictos = Option.some ps) :
    ((inventoryStep u p).1).pictos = ps := by
  unfold inventoryStep
  rw [if_pos hty]
  repeat' split
  all_goals simp_all

theorem inventoryStep_inventory_none (u : StateUpdate) (p : GameState × Bool)
    (h : u.inventory_items = Option.none) :
    ((inventoryStep u p).1).inventory = p.1.inventory := by
  unfold inventoryStep
  repeat' split
  all_goals simp_all

theorem inventoryStep_pictos_none (u : StateUpdate) (p : GameState × Bool)
    (h : u.pictos = Option.none) :
    ((inventoryStep u p).1).pictos = p.1.pictos := by
  unfold inventoryStep
  repeat' split
  all_goals simp_all

theorem inventoryStep_changed_fire (u : StateUpdate) (p : GameState × Bool)
    (hty : u.update_type = UpdateType.inventory ∨ u.update_type = UpdateType.multiple)
    (h : u.inventory_items ≠ Option.none ∨ u.pictos ≠ Option.none) :
    (inventoryStep u p).2 = true := by
  unfold inventoryStep
  rw [if_pos hty]
  repeat' split
  all_goals simp_all

theorem gameEventStep_boss_defeated_fire (u : StateUpdate) (p : GameState × Bool)
    (b : BossState)
    (hty : u.update_type = UpdateType.game_event ∨ u.update_type = UpdateType.multiple)
    (hev : u.game_event = Option.some GameEvent.boss_defeated)
    (hb : p.1.current_boss = Option.some b) :
    gameEventStep u p =
      ({ p.1 with
          bosses_defeated := insertIfAbsent p.1.bosses_defeated b.name,
          axons_defeated :=
            if b.is_axon then insertIfAbsent p.1.axons_defeated b.name
            else p.1.axons_defeated,
          current_boss := Option.none }, true) := by
  unfold gameEventStep
  rw [if_pos hty, hev, hb]

theorem gameEventStep_boss_defeated_noboss (u : StateUpdate) (p : GameState × Bool)
    (hty : u.update_type = UpdateType.game_event ∨ u.update_type = UpdateType.multiple)
    (hev : u.game_event = Option.some GameEvent.boss_defeated)
    (hb : p.1.current_boss = Option.none) :
    gameEventStep u p = (p.1, true) := by
  unfold gameEventStep
  rw [if_pos hty, hev, hb]

theorem flagRestStep_fire (u : StateUpdate) (p : GameState × Bool) (fn : String)
    (hty : u.update_type = UpdateType.flag_rest ∨ u.update_type = UpdateType.multiple)
    (hfn : u.flag_name = Option.some fn) (hne : fn ≠ "") :
    flagRestStep u p =
      ({ p.1 with
          last_flag := Option.some fn,
          flags_discovered := insertIfAbsent p.1.flags_discovered fn,
          current_boss := Option.none,
          at_camp := false }, true) := by
  unfold flagRestStep
  rw [if_pos hty, hfn]
  exact if_pos hne

theorem flagRestStep_flags_mem (u : StateUpdate) (p : GameState × Bool) (y : String)
    (h : y ∈ p.1.flags_discovered) :
    y ∈ ((flagRestStep u p).1).flags_discovered := by
  unfold flagRestStep
  repeat' split
  all_goals first | exact mem_insertIfAbsent_of_mem _ h | exact h

theorem campRestStep_fire (u : StateUpdate) (p : GameState × Bool) (b : Bool)
    (hty : u.update_type = UpdateType.camp_rest ∨ u.update_type = UpdateType.multiple)
    (hc : u.at_camp = Option.some b) :
    campRestStep u p = ({ p.1 with at_camp := b, current_boss := Option.none }, true) := by
  unfold campRestStep
  rw [if_pos hty, hc]

theorem statsStep_char_some (u : StateUpdate) (p : GameState × Bool)
    (csl : List CharacterStats)
    (hty : u.update_type = UpdateType.stats ∨ u.update_type = UpdateType.multiple)
    (h : u.character_stats = Option.some csl) :
    ((statsStep u p).1).character_stats = applyCharStats csl p.1.character_stats := by
  unfold statsStep
  rw [if_pos hty]
  repeat' split
  all_goals simp_all [applyPartyStats_character_stats]

theorem statsStep_char_none (u : StateUpdate) (p : GameState × Bool)
    (h : u.character_stats = Option.none) :
    ((statsStep u p).1).character_stats = p.1.character_stats := by
  unfold statsStep
  repeat' split
  all_goals simp_all [applyPartyStats_character_stats]

theorem statsStep_active_some (u : StateUpdate) (p : GameState × Bool)
    (ps : PartyStats) (ac : List String)
    (hty : u.update_type = UpdateType.stats ∨ u.update_type = UpdateType.multiple)
    (hps : u.party_stats = Option.some ps) (hac : ps.active_characters = Option.some ac)
    (hne : ac ≠ []) :
    ((statsStep u p).1).active_party = ac := by
  unfold statsStep
  rw [if_pos hty]
  repeat' split
  all_goals simp_all [applyPartyStats_active_some ps _ ac hac hne]

theorem statsStep_active_stable (u : StateUpdate) (p : GameState × Bool) (ps : PartyStats)
    (hps : u.party_stats = Option.some ps)
    (h : ps.active_characters = Option.none ∨ ps.active_characters = Option.some []) :
    ((statsStep u p).1).active_party = p.1.active_party := by
  unfold statsStep
  repeat' split
  all_goals simp_all [applyPartyStats_active_stable ps _ h]

theorem statsStep_party_none (u : StateUpdate) (p : GameState × Bool)
    (hps : u.party_stats = Option.none) :
    ((statsStep u p).1).active_party = p.1.active_party ∧
      ((statsStep u p).1).gradient_gauge = p.1.gradient_gauge := by
  unfold statsStep
  repeat' split
  all_goals simp_all

theorem statsStep_gauge_some (u : StateUpdate) (p : GameState × Bool)
    (ps : PartyStats) (g : Rat)
    (hty : u.update_type = UpdateType.stats ∨ u.update_type = UpdateType.multiple)
    (hps : u.party_stats = Option.some ps) (hg : ps.gradient_gauge = Option.some g) :
    ((statsStep u p).1).gradient_gauge = g := by
  unfold statsStep
  rw [if_pos hty]
  repeat' split
  all_goals simp_all [applyPartyStats_gauge_some ps _ g hg]

theorem statsStep_gauge_none (u : StateUpdate) (p : GameState × Bool) (ps : PartyStats)
    (hps : u.party_stats = Option.some ps) (hg : ps.gradient_gauge = Option.none) :
    ((statsStep u p).1).gradient_gauge = p.1.gradient_gauge := by
  unfold statsStep
  repeat' split
  all_goals simp_all [applyPartyStats_gauge_none ps _ hg]

theorem statsStep_changed_fire (u : StateUpdate) (p : GameState × Bool)
    (hty : u.update_type = UpdateType.stats ∨ u.update_type = UpdateType.multiple)
    (h : u.character_stats ≠ Option.none ∨ u.party_stats ≠ Option.none) :
    (statsStep u p).2 = true := by
  unfold statsStep
  rw [if_pos hty]
  repeat' split
  all_goals simp_all

theorem statsStep_noop_both_none (u : StateUpdate) (p : GameState × Bool)
    (h1 : u.character_stats = Option.none) (h2 : u.party_stats = Option.none) :
    statsStep u p = p := by
  unfold statsStep
  repeat' split
  all_goals simp_all

/-! ### Closed form for the discovered-flag list through `gameEventStep` -/

theorem gameEventStep_flags_eq (u : StateUpdate) (p : GameState × Bool) :
    ((gameEventStep u p).1).flags_discovered = closedFlags u p.1.flags_discovered := by
  unfold gameEventStep closedFlags
  by_cases hg : u.update_type = UpdateType.game_event ∨ u.update_type = UpdateType.multiple
  · rw [if_pos hg]
    rcases hev : u.game_event with _ | ev
    · simp [hev]
    · cases ev
      · simp [hev, hg]
      · simp [hev, hg]
      · simp only [hev]
        split
        all_goals simp [hev]
      · rcases hfn : u.flag_name with _ | fn
        · simp [hev, hfn, hg]
        · by_cases hfe : fn = ""
          · simp [hev, hfn, hfe, hg]
          · simp [hev, hfn, hfe, hg]
  · rw [if_neg hg]
    simp [hg]

theorem inventoryStep_noop_both_none (u : StateUpdate) (p : GameState × Bool)
    (h1 : u.inventory_items = Option.none) (h2 : u.pictos = Option.none) :
    inventoryStep u p = p := by
  unfold inventoryStep
  repeat' split
  all_goals simp_all

/-! ### Collapsing `apply_update` for a single-category observation -/

theorem apply_update_game_event_eq (s : GameState) (u : StateUpdate)
    (hty : u.update_type = UpdateType.game_event) :
    GameState.apply_update s u = gameEventStep u (s, false) := by
  unfold GameState.apply_update
  rw [if_neg (by rw [hty]; decide),
      locationStep_skip _ _ (by rw [hty]; decide),
      inventoryStep_skip _ _ (by rw [hty]; decide),
      bossEncounterStep_skip _ _ (by rw [hty]; decide),
      flagRestStep_skip _ _ (by rw [hty]; decide),
      campRestStep_skip _ _ (by rw [hty]; decide),
      statsStep_skip _ _ (by rw [hty]; decide)]

theorem apply_update_stats_eq (s : GameState) (u : StateUpdate)
    (hty : u.update_type = UpdateType.stats) :
    GameState.apply_update s u = statsStep u (s, false) := by
  unfold GameState.apply_update
  rw [if_neg (by rw [hty]; decide),
      locationStep_skip _ _ (by rw [hty]; decide),
      inventoryStep_skip _ _ (by rw [hty]; decide),
      bossEncounterStep_skip _ _ (by rw [hty]; decide),
      gameEventStep_skip _ _ (by rw [hty]; decide),
      flagRestStep_skip _ _ (by rw [hty]; decide),
      campRestStep_skip _ _ (by rw [hty]; decide)]

/-! ### Concrete observations and records used as witnesses and counterexamples -/

/-! ### C1: no-op purity -/

/-- Claim C1: applying an Observation with kind `none` (`update_type = noop`) returns
`changed = false` and leaves every field of the record unchanged, whatever the
payload fields hold. -/
theorem apply_update_noop (s : GameState) (u : StateUpdate)
    (h : u.update_type = UpdateType.noop) :
    GameState.apply_update s u = (s, false) := by
  unfold GameState.apply_update
  rw [if_pos h]

/-- Witness for C1 at the default record and the all-absent noop observation. -/
theorem apply_update_noop_witness :
    GameState.apply_update initialGameState noopUpdate = (initialGameState, false) :=
  apply_update_noop initialGameState noopUpdate rfl

/-! ### C2: location merge rule -/

/-- Claim C2 counterexample: the payload `Option.some ""` is non-null and differs
from the current location `"Unknown"`, yet `apply_update` leaves the record
unchanged and returns `false` — the code tests Python truthiness, not
non-nullness. -/
theorem location_nonnull_empty_counterexample :
    emptyLocUpdate.update_type = UpdateType.location ∧
    emptyLocUpdate.new_location = Option.some ("") ∧
    ("" : String) ≠ initialGameState.player_location ∧
    GameState.apply_update initialGameState emptyLocUpdate = (initialGameState, false) := by
  refine ⟨rfl, rfl, by decide, rfl⟩

/-- Claim C2 (amended): for a `location` or `multiple` observation whose payload is
non-null and non-empty, a differing value overwrites the location and marks
changed, while an identical value leaves the location unchanged and (for a
pure `location` observation) changes nothing at all. -/
theorem location_update_rules (s : GameState) (u : StateUpdate) (loc : String)
    (hty : u.update_type = UpdateType.location ∨ u.update_type = UpdateType.multiple)
    (hl : u.new_location = Option.some loc) (hne : loc ≠ "") :
    (loc ≠ s.player_location →
      ((GameState.apply_update s u).1).player_location = loc ∧
        (GameState.apply_update s u).2 = true) ∧
    (loc = s.player_location →
      ((GameState.apply_update s u).1).player_location = s.player_location ∧
        (u.update_type = UpdateType.location → GameState.apply_update s u = (s, false))) := by
  have hnoop : ¬ u.update_type = UpdateType.noop := by
    rcases hty with h | h <;> rw [h] <;> decide
  constructor
  · intro hdiff
    unfold GameState.apply_update
    rw [if_neg hnoop, locationStep_fire u (s, false) loc hty hl hne hdiff]
    constructor
    · rw [statsStep_player_location, campRestStep_player_location,
          flagRestStep_player_location, gameEventStep_player_location,
          bossEncounterStep_player_location, inventoryStep_player_location]
    · exact statsStep_changed _ _ (campRestStep_changed _ _ (flagRestStep_changed _ _
        (gameEventStep_changed _ _ (bossEncounterStep_changed _ _
        (inventoryStep_changed _ _ rfl)))))
  · intro heq
    unfold GameState.apply_update
    rw [if_neg hnoop, locationStep_same u (s, false) loc hl heq]
    constructor
    · rw [statsStep_player_location, campRestStep_player_location,
          flagRestStep_player_location, gameEventStep_player_location,
          bossEncounterStep_player_location, inventoryStep_player_location]
    · intro hloc
      rw [inventoryStep_skip _ _ (by rw [hloc]; decide),
          bossEncounterStep_skip _ _ (by rw [hloc]; decide),
          gameEventStep_skip _ _ (by rw [hloc]; decide),
          flagRestStep_skip _ _ (by rw [hloc]; decide),
          campRestStep_skip _ _ (by rw [hloc]; decide),
          statsStep_skip _ _ (by rw [hloc]; decide)]

/-- Witness for C2 at the default record and a `location` observation
reporting a new area name. -/
theorem location_update_rules_witness :
    (("Lumiere" : String) ≠ initialGameState.player_location →
      ((GameState.apply_update initialGameState locUpdate).1).player_location = "Lumiere" ∧
        (GameState.apply_update initialGameState locUpdate).2 = true) ∧
    (("Lumiere" : String) = initialGameState.player_location →
      ((GameState.apply_update initialGameState locUpdate).1).player_location =
          initialGameState.player_location ∧
        (locUpdate.update_type = UpdateType.location →
          GameState.apply_update initialGameState locUpdate = (initialGameState, false))) :=
  location_update_rules initialGameState locUpdate ("Lumiere") (Or.inl rfl) rfl (by decide)

/-! ### C3: wholesale inventory and perk replacement -/

/-- Claim C3: for an `inventory` or `multiple` observation, a non-null item list
replaces the inventory wholesale, a non-null Picto list replaces the perk
snapshot wholesale, the two sub-rules fire independently, either marks
changed, and a pure `inventory` observation with both payloads null changes
nothing. -/
theorem inventory_wholesale_replacement (s : GameState) (u : StateUpdate)
    (hty : u.update_type = UpdateType.inventory ∨ u.update_type = UpdateType.multiple) :
    (∀ items, u.inventory_items = Option.some items →
        ((GameState.apply_update s u).1).inventory = items) ∧
    (∀ ps, u.pictos = Option.some ps → ((GameState.apply_update s u).1).pictos = ps) ∧
    (u.inventory_items = Option.none →
        ((GameState.apply_update s u).1).inventory = s.inventory) ∧
    (u.pictos = Option.none → ((GameState.apply_update s u).1).pictos = s.pictos) ∧
    ((u.inventory_items ≠ Option.none ∨ u.pictos ≠ Option.none) →
        (GameState.apply_update s u).2 = true) ∧
    (u.update_type = UpdateType.inventory → u.inventory_items = Option.none →
        u.pictos = Option.none → GameState.apply_update s u = (s, false)) := by
  have hnoop : ¬ u.update_type = UpdateType.noop := by
    rcases hty with h | h <;> rw [h] <;> decide
  refine ⟨?_, ?_, ?_, ?_, ?_, ?_⟩
  · intro items h
    unfold GameState.apply_update
    rw [if_neg hnoop, statsStep_inventory, campRestStep_inventory, flagRestStep_inventory,
        gameEventStep_inventory, bossEncounterStep_inventory]
    exact inventoryStep_inventory_some u _ items hty h
  · intro ps h
    unfold GameState.apply_update
    rw [if_neg hnoop, statsStep_pictos, campRestStep_pictos, flagRestStep_pictos,
        gameEventStep_pictos, bossEncounterStep_pictos]
    exact inventoryStep_pictos_some u _ ps hty h
  · intro h
    unfold GameState.apply_update
    rw [if_neg hnoop, statsStep_inventory, campRestStep_inventory, flagRestStep_inventory,
        gameEventStep_inventory, bossEncounterStep_inventory,
        inventoryStep_inventory_none u _ h, locationStep_inventory]
  · intro h
    unfold GameState.apply_update
    rw [if_neg hnoop, statsStep_pictos, campRestStep_pictos, flagRestStep_pictos,
        gameEventStep_pictos, bossEncounterStep_pictos,
        inventoryStep_pictos_none u _ h, locationStep_pictos]
  · intro h
    unfold GameState.apply_update
    rw [if_neg hnoop]
    exact statsStep_changed _ _ (campRestStep_changed _ _ (flagRestStep_changed _ _
      (gameEventStep_changed _ _ (bossEncounterStep_changed _ _
      (inventoryStep_changed_fire u _ hty h)))))
  · intro ht h1 h2
    unfold GameState.apply_update
    rw [if_neg hnoop, locationStep_skip _ _ (by rw [ht]; decide),
        inventoryStep_noop_both_none _ _ h1 h2,
        bossEncounterStep_skip _ _ (by rw [ht]; decide),
        gameEventStep_skip _ _ (by rw [ht]; decide),
        flagRestStep_skip _ _ (by rw [ht]; decide),
        campRestStep_skip _ _ (by rw [ht]; decide),
        statsStep_skip _ _ (by rw [ht]; decide)]

/-- Witness for C3: replacing inventory `[Potion x2]` by `[Tint x1]` yields
exactly `[Tint x1]`. -/
theorem inventory_wholesale_replacement_witness :
    (∀ items, invUpdate.inventory_items = Option.some items →
        ((GameState.apply_update gsInv invUpdate).1).inventory = items) ∧
    (∀ ps, invUpdate.pictos = Option.some ps →
        ((GameState.apply_update gsInv invUpdate).1).pictos = ps) ∧
    (invUpdate.inventory_items = Option.none →
        ((GameState.apply_update gsInv invUpdate).1).inventory = gsInv.inventory) ∧
    (invUpdate.pictos = Option.none →
        ((GameState.apply_update gsInv invUpdate).1).pictos = gsInv.pictos) ∧
    ((invUpdate.inventory_items ≠ Option.none ∨ invUpdate.pictos ≠ Option.none) →
        (GameState.apply_update gsInv invUpdate).2 = true) ∧
    (invUpdate.update_type = UpdateType.inventory →
        invUpdate.inventory_items = Option.none → invUpdate.pictos = Option.none →
        GameState.apply_update gsInv invUpdate = (gsInv, false)) :=
  inventory_wholesale_replacement gsInv invUpdate (Or.inl rfl)

/-! ### C10: changed does not imply mutation -/

/-- Claim C10: `changed = true` does not imply the record was mutated: a
`game_event` observation tagged `flag_discovered` with a null flag name
returns `true` while leaving every field of the record unchanged. -/
theorem changed_without_mutation :
    nullFlagEventUpdate.flag_name = Option.none ∧
    GameState.apply_update initialGameState nullFlagEventUpdate =
      (initialGameState, true) :=
  ⟨rfl, rfl⟩

/-! ### C4: defeat bookkeeping -/

/-- Claim C4: on a `game_event` observation tagged `boss_defeated`, `changed` is
true and the current encounter ends null; if an encounter existed, its name is
inserted idempotently into the defeated set, into the elevated-defeated set
exactly when it was flagged `is_axon`, and nothing is inserted otherwise. -/
theorem boss_defeated_bookkeeping (s : GameState) (u : StateUpdate)
    (hty : u.update_type = UpdateType.game_event)
    (hev : u.game_event = Option.some GameEvent.boss_defeated) :
    (GameState.apply_update s u).2 = true ∧
    ((GameState.apply_update s u).1).current_boss = Option.none ∧
    (∀ b : BossState, s.current_boss = Option.some b →
      ((GameState.apply_update s u).1).bosses_defeated =
          insertIfAbsent s.bosses_defeated b.name ∧
        b.name ∈ ((GameState.apply_update s u).1).bosses_defeated ∧
        (b.is_axon = true →
          ((GameState.apply_update s u).1).axons_defeated =
              insertIfAbsent s.axons_defeated b.name ∧
            b.name ∈ ((GameState.apply_update s u).1).axons_defeated) ∧
        (b.is_axon = false →
          ((GameState.apply_update s u).1).axons_defeated = s.axons_defeated)) := by
  rw [apply_update_game_event_eq s u hty]
  rcases hb : s.current_boss with _ | b
  · rw [gameEventStep_boss_defeated_noboss u (s, false) (Or.inl hty) hev hb]
    refine ⟨rfl, hb, ?_⟩
    intro b2 hb2
    exact Option.noConfusion hb2
  · rw [gameEventStep_boss_defeated_fire u (s, false) b (Or.inl hty) hev hb]
    refine ⟨rfl, rfl, ?_⟩
    intro b2 hb2
    injection hb2 with he
    subst he
    refine ⟨rfl, mem_insertIfAbsent_self _ _, ?_, ?_⟩
    · intro hax
      constructor
      · show (if b.is_axon then insertIfAbsent s.axons_defeated b.name
            else s.axons_defeated) = insertIfAbsent s.axons_defeated b.name
        rw [hax]
        exact if_pos rfl
      · show b.name ∈ (if b.is_axon then insertIfAbsent s.axons_defeated b.name
            else s.axons_defeated)
        rw [hax, if_pos rfl]
        exact mem_insertIfAbsent_self _ _
    · intro hax
      show (if b.is_axon then insertIfAbsent s.axons_defeated b.name
          else s.axons_defeated) = s.axons_defeated
      rw [hax]
      exact if_neg (by decide)

/-- Witness for C4 at a record fighting the elevated-threat encounter X. -/
theorem boss_defeated_bookkeeping_witness :
    (GameState.apply_update gsBoss bossDefeatedUpdate).2 = true ∧
    ((GameState.apply_update gsBoss bossDefeatedUpdate).1).current_boss = Option.none ∧
    (∀ b : BossState, gsBoss.current_boss = Option.some b →
      ((GameState.apply_update gsBoss bossDefeatedUpdate).1).bosses_defeated =
          insertIfAbsent gsBoss.bosses_defeated b.name ∧
        b.name ∈ ((GameState.apply_update gsBoss bossDefeatedUpdate).1).bosses_defeated ∧
        (b.is_axon = true →
          ((GameState.apply_update gsBoss bossDefeatedUpdate).1).axons_defeated =
              insertIfAbsent gsBoss.axons_defeated b.name ∧
            b.name ∈ ((GameState.apply_update gsBoss bossDefeatedUpdate).1).axons_defeated) ∧
        (b.is_axon = false →
          ((GameState.apply_update gsBoss bossDefeatedUpdate).1).axons_defeated =
            gsBoss.axons_defeated)) :=
  boss_defeated_bookkeeping gsBoss bossDefeatedUpdate rfl rfl

/-! ### C5: rest-at-waypoint merge rule -/

/-- Claim C5 counterexample: a `multiple` observation with a waypoint name present
but also an `at_camp = true` payload ends with the at-camp flag `true`, not
`false` as the claim states — the camp-rest category runs after the flag-rest
category and overwrites the flag. -/
theorem flag_rest_at_camp_counterexample :
    flagCampUpdate.update_type = UpdateType.multiple ∧
    flagCampUpdate.flag_name = Option.some ("Meadow Flag") ∧
    ((GameState.apply_update initialGameState flagCampUpdate).1).at_camp = true :=
  ⟨rfl, rfl, rfl⟩

/-- Claim C5 (amended): for a `flag_rest` or `multiple` observation with a truthy
waypoint name, `apply_update` sets the last-rested waypoint, inserts the name
idempotently into the discovered set, clears the current encounter, and marks
changed; the at-camp flag ends `false` unless the observation is `multiple`
and also carries an at-camp payload, which is applied afterwards and wins. -/
theorem flag_rest_rules (s : GameState) (u : StateUpdate) (fn : String)
    (hty : u.update_type = UpdateType.flag_rest ∨ u.update_type = UpdateType.multiple)
    (hfn : u.flag_name = Option.some fn) (hne : fn ≠ "") :
    ((GameState.apply_update s u).1).last_flag = Option.some fn ∧
    ((GameState.apply_update s u).1).flags_discovered =
        insertIfAbsent s.flags_discovered fn ∧
    fn ∈ ((GameState.apply_update s u).1).flags_discovered ∧
    ((GameState.apply_update s u).1).current_boss = Option.none ∧
    (GameState.apply_update s u).2 = true ∧
    ((u.update_type = UpdateType.flag_rest ∨ u.at_camp = Option.none) →
        ((GameState.apply_update s u).1).at_camp = false) ∧
    (∀ b2 : Bool, u.update_type = UpdateType.multiple → u.at_camp = Option.some b2 →
        ((GameState.apply_update s u).1).at_camp = b2) := by
  have hnoop : ¬ u.update_type = UpdateType.noop := by
    rcases hty with h | h <;> rw [h] <;> decide
  unfold GameState.apply_update
  rw [if_neg hnoop]
  set q := gameEventStep u (bossEncounterStep u (inventoryStep u
    (locationStep u (s, false)))) with hq
  rw [flagRestStep_fire u q fn hty hfn hne]
  have hq_flags : q.1.flags_discovered = s.flags_discovered ∨
      q.1.flags_discovered = insertIfAbsent s.flags_discovered fn := by
    rw [hq, gameEventStep_flags_eq, bossEncounterStep_flags_discovered,
        inventoryStep_flags_discovered, locationStep_flags_discovered]
    unfold closedFlags
    by_cases hC : (u.update_type = UpdateType.game_event ∨
        u.update_type = UpdateType.multiple) ∧
        u.game_event = Option.some GameEvent.flag_discovered
    · right
      rw [if_pos hC, hfn]
      exact if_pos hne
    · left
      rw [if_neg hC]
  refine ⟨?_, ?_, ?_, ?_, ?_, ?_, ?_⟩
  · rw [statsStep_last_flag, campRestStep_last_flag]
  · rw [statsStep_flags_discovered, campRestStep_flags_discovered]
    show insertIfAbsent q.1.flags_discovered fn = insertIfAbsent s.flags_discovered fn
    rcases hq_flags with h | h <;> rw [h]
    exact insertIfAbsent_idem _ _
  · rw [statsStep_flags_discovered, campRestStep_flags_discovered]
    exact mem_insertIfAbsent_self _ _
  · rw [statsStep_current_boss]
    exact campRestStep_boss_none u _ rfl
  · exact statsStep_changed _ _ (campRestStep_changed _ _ rfl)
  · intro h
    rcases h with h | h
    · rw [statsStep_at_camp, campRestStep_skip _ _ (by rw [h]; decide)]
    · rw [statsStep_at_camp, campRestStep_at_camp_none u _ h]
  · intro b2 ht hc
    rw [statsStep_at_camp, campRestStep_fire u _ b2 (Or.inr ht) hc]

/-- Witness for C5 at the default record and a pure `flag_rest` observation. -/
theorem flag_rest_rules_witness :
    ((GameState.apply_update initialGameState flagRestUpdate).1).last_flag =
        Option.some ("Meadow Flag") ∧
    ((GameState.apply_update initialGameState flagRestUpdate).1).flags_discovered =
        insertIfAbsent initialGameState.flags_discovered ("Meadow Flag") ∧
    ("Meadow Flag" : String) ∈
        ((GameState.apply_update initialGameState flagRestUpdate).1).flags_discovered ∧
    ((GameState.apply_update initialGameState flagRestUpdate).1).current_boss =
        Option.none ∧
    (GameState.apply_update initialGameState flagRestUpdate).2 = true ∧
    ((flagRestUpdate.update_type = UpdateType.flag_rest ∨
        flagRestUpdate.at_camp = Option.none) →
      ((GameState.apply_update initialGameState flagRestUpdate).1).at_camp = false) ∧
    (∀ b2 : Bool, flagRestUpdate.update_type = UpdateType.multiple →
        flagRestUpdate.at_camp = Option.some b2 →
        ((GameState.apply_update initialGameState flagRestUpdate).1).at_camp = b2) :=
  flag_rest_rules initialGameState flagRestUpdate ("Meadow Flag") (Or.inl rfl) rfl
    (by decide)

/-! ### C6: rest-at-camp merge rule -/

/-- Claim C6: for a `camp_rest` or `multiple` observation whose at-camp payload is
present (including explicit `false`), `apply_update` overwrites the at-camp
flag with the observed value, clears the current encounter, and returns
`changed = true`. -/
theorem camp_rest_rules (s : GameState) (u : StateUpdate) (b : Bool)
    (hty : u.update_type = UpdateType.camp_rest ∨ u.update_type = UpdateType.multiple)
    (hc : u.at_camp = Option.some b) :
    ((GameState.apply_update s u).1).at_camp = b ∧
    ((GameState.apply_update s u).1).current_boss = Option.none ∧
    (GameState.apply_update s u).2 = true := by
  have hnoop : ¬ u.update_type = UpdateType.noop := by
    rcases hty with h | h <;> rw [h] <;> decide
  unfold GameState.apply_update
  rw [if_neg hnoop, campRestStep_fire u _ b hty hc]
  exact ⟨by rw [statsStep_at_camp], by rw [statsStep_current_boss],
    statsStep_changed _ _ rfl⟩

/-- Witness for C6: a record with a non-null current encounter plus a
`camp_rest` observation with `at_camp = true` ends with a null encounter and
the at-camp flag set. -/
theorem camp_rest_rules_witness :
    ((GameState.apply_update gsBoss campUpdate).1).at_camp = true ∧
    ((GameState.apply_update gsBoss campUpdate).1).current_boss = Option.none ∧
    (GameState.apply_update gsBoss campUpdate).2 = true :=
  camp_rest_rules gsBoss campUpdate true (Or.inl rfl) rfl

theorem closedFlags_idem (u : StateUpdate) (l : List String) :
    closedFlags u (closedFlags u l) = closedFlags u l := by
  unfold closedFlags
  by_cases hC : (u.update_type = UpdateType.game_event ∨
      u.update_type = UpdateType.multiple) ∧
      u.game_event = Option.some GameEvent.flag_discovered
  · rcases hfn : u.flag_name with _ | fn
    · simp [hC, hfn]
    · by_cases hfe : fn = ""
      · simp [hC, hfn, hfe]
      · simp [hC, hfn, hfe, insertIfAbsent_idem]
  · simp [hC]

/-! ### C7: stats merge rule -/

/-- Claim C7 counterexample: the aggregate payload is present with a non-null
roster `[]`, yet the roster is not overwritten (the record is returned
bit-for-bit unchanged) while `changed = true` is still reported — so a
non-null sub-field is not always applied, and `changed` is not equivalent to
"some sub-update occurred". -/
theorem stats_aggregate_counterexample :
    emptyRosterUpdate.party_stats =
      Option.some { active_characters := Option.some [], gradient_gauge := Option.none } ∧
    initialGameState.active_party ≠ ([] : List String) ∧
    GameState.apply_update initialGameState emptyRosterUpdate =
      (initialGameState, true) :=
  ⟨rfl, by decide, rfl⟩

/-- Claim C7 (amended): per-member stat records upsert exactly their member's
entry, leaving other members untouched; for a present aggregate, a non-null
non-empty roster overwrites the active roster, a non-null gauge overwrites
the gauge, and a null (or empty-roster) sub-field leaves its target
unchanged; for a pure `stats` observation, `changed = true` holds exactly
when the per-member list or the aggregate payload is present (non-null). -/
theorem stats_update_rules (s : GameState) (u : StateUpdate)
    (hty : u.update_type = UpdateType.stats ∨ u.update_type = UpdateType.multiple) :
    (∀ csl, u.character_stats = Option.some csl →
      (∀ m, (∀ cs ∈ csl, cs.name ≠ m) →
          dictGet ((GameState.apply_update s u).1).character_stats m =
            dictGet s.character_stats m) ∧
      (∀ cs ∈ csl, (∀ cs2 ∈ csl, cs2.name = cs.name → cs2 = cs) →
          dictGet ((GameState.apply_update s u).1).character_stats cs.name =
            Option.some cs)) ∧
    (u.character_stats = Option.none →
        ((GameState.apply_update s u).1).character_stats = s.character_stats) ∧
    (∀ ps, u.party_stats = Option.some ps →
      (∀ ac, ps.active_characters = Option.some ac → ac ≠ [] →
          ((GameState.apply_update s u).1).active_party = ac) ∧
      ((ps.active_characters = Option.none ∨ ps.active_characters = Option.some []) →
          ((GameState.apply_update s u).1).active_party = s.active_party) ∧
      (∀ g, ps.gradient_gauge = Option.some g →
          ((GameState.apply_update s u).1).gradient_gauge = g) ∧
      (ps.gradient_gauge = Option.none →
          ((GameState.apply_update s u).1).gradient_gauge = s.gradient_gauge)) ∧
    (u.party_stats = Option.none →
        ((GameState.apply_update s u).1).active_party = s.active_party ∧
        ((GameState.apply_update s u).1).gradient_gauge = s.gradient_gauge) ∧
    (u.update_type = UpdateType.stats →
      ((GameState.apply_update s u).2 = true ↔
        (u.character_stats ≠ Option.none ∨ u.party_stats ≠ Option.none))) := by
  have hnoop : ¬ u.update_type = UpdateType.noop := by
    rcases hty with h | h <;> rw [h] <;> decide
  set q := campRestStep u (flagRestStep u (gameEventStep u (bossEncounterStep u
    (inventoryStep u (locationStep u (s, false)))))) with hqdef
  have happly : GameState.apply_update s u = statsStep u q := by
    unfold GameState.apply_update
    rw [if_neg hnoop, hqdef]
  have hqc : q.1.character_stats = s.character_stats := by
    rw [hqdef, campRestStep_character_stats, flagRestStep_character_stats,
        gameEventStep_character_stats, bossEncounterStep_character_stats,
        inventoryStep_character_stats, locationStep_character_stats]
  have hqa : q.1.active_party = s.active_party := by
    rw [hqdef, campRestStep_active_party, flagRestStep_active_party,
        gameEventStep_active_party, bossEncounterStep_active_party,
        inventoryStep_active_party, locationStep_active_party]
  have hqg : q.1.gradient_gauge = s.gradient_gauge := by
    rw [hqdef, campRestStep_gradient_gauge, flagRestStep_gradient_gauge,
        gameEventStep_gradient_gauge, bossEncounterStep_gradient_gauge,
        inventoryStep_gradient_gauge, locationStep_gradient_gauge]
  refine ⟨?_, ?_, ?_, ?_, ?_⟩
  · intro csl h
    constructor
    · intro m hm
      rw [happly, statsStep_char_some u q csl hty h, hqc]
      exact applyCharStats_get_of_not_mem csl _ m hm
    · intro cs hcs huni
      rw [happly, statsStep_char_some u q csl hty h, hqc]
      exact applyCharStats_get_self csl _ cs hcs huni
  · intro h
    rw [happly, statsStep_char_none u q h, hqc]
  · intro ps hps
    refine ⟨?_, ?_, ?_, ?_⟩
    · intro ac hac hne
      rw [happly]
      exact statsStep_active_some u q ps ac hty hps hac hne
    · intro h
      rw [happly, statsStep_active_stable u q ps hps h, hqa]
    · intro g hg
      rw [happly]
      exact statsStep_gauge_some u q ps g hty hps hg
    · intro h
      rw [happly, statsStep_gauge_none u q ps hps h, hqg]
  · intro h
    have hpn := statsStep_party_none u q h
    rw [happly]
    exact ⟨by rw [hpn.1, hqa], by rw [hpn.2, hqg]⟩
  · intro ht
    have hq0 : q = (s, false) := by
      rw [hqdef, locationStep_skip _ _ (by rw [ht]; decide),
          inventoryStep_skip _ _ (by rw [ht]; decide),
          bossEncounterStep_skip _ _ (by rw [ht]; decide),
          gameEventStep_skip _ _ (by rw [ht]; decide),
          flagRestStep_skip _ _ (by rw [ht]; decide),
          campRestStep_skip _ _ (by rw [ht]; decide)]
    rw [happly, hq0]
    constructor
    · intro h2
      by_contra hcon
      push_neg at hcon
      rw [statsStep_noop_both_none u _ hcon.1 hcon.2] at h2
      exact Bool.false_ne_true h2
    · intro h2
      exact statsStep_changed_fire u _ (Or.inl ht) h2

/-- Witness for C7: updating only Maelle leaves Lune's entry untouched. -/
theorem stats_update_rules_witness :
    (∀ csl, statsAUpdate.character_stats = Option.some csl →
      (∀ m, (∀ cs ∈ csl, cs.name ≠ m) →
          dictGet ((GameState.apply_update gsStats statsAUpdate).1).character_stats m =
            dictGet gsStats.character_stats m) ∧
      (∀ cs ∈ csl, (∀ cs2 ∈ csl, cs2.name = cs.name → cs2 = cs) →
          dictGet ((GameState.apply_update gsStats statsAUpdate).1).character_stats
              cs.name = Option.some cs)) ∧
    (statsAUpdate.character_stats = Option.none →
        ((GameState.apply_update gsStats statsAUpdate).1).character_stats =
          gsStats.character_stats) ∧
    (∀ ps, statsAUpdate.party_stats = Option.some ps →
      (∀ ac, ps.active_characters = Option.some ac → ac ≠ [] →
          ((GameState.apply_update gsStats statsAUpdate).1).active_party = ac) ∧
      ((ps.active_characters = Option.none ∨ ps.active_characters = Option.some []) →
          ((GameState.apply_update gsStats statsAUpdate).1).active_party =
            gsStats.active_party) ∧
      (∀ g, ps.gradient_gauge = Option.some g →
          ((GameState.apply_update gsStats statsAUpdate).1).gradient_gauge = g) ∧
      (ps.gradient_gauge = Option.none →
          ((GameState.apply_update gsStats statsAUpdate).1).gradient_gauge =
            gsStats.gradient_gauge)) ∧
    (statsAUpdate.party_stats = Option.none →
        ((GameState.apply_update gsStats statsAUpdate).1).active_party =
            gsStats.active_party ∧
        ((GameState.apply_update gsStats statsAUpdate).1).gradient_gauge =
            gsStats.gradient_gauge) ∧
    (statsAUpdate.update_type = UpdateType.stats →
      ((GameState.apply_update gsStats statsAUpdate).2 = true ↔
        (statsAUpdate.character_stats ≠ Option.none ∨
          statsAUpdate.party_stats ≠ Option.none))) :=
  stats_update_rules gsStats statsAUpdate (Or.inl rfl)

/-! ### C8: composite fan-out -/

/-- Claim C8: a single `multiple` observation carrying both a differing truthy
location payload and a `flag_discovered` event with a truthy flag name
updates both the location and the discovered set in one call, with
`changed = true`. -/
theorem composite_fan_out (s : GameState) (u : StateUpdate) (loc fn : String)
    (hty : u.update_type = UpdateType.multiple)
    (hl : u.new_location = Option.some loc) (hlne : loc ≠ "")
    (hdiff : loc ≠ s.player_location)
    (hev : u.game_event = Option.some GameEvent.flag_discovered)
    (hfn : u.flag_name = Option.some fn) (hne : fn ≠ "") :
    ((GameState.apply_update s u).1).player_location = loc ∧
    fn ∈ ((GameState.apply_update s u).1).flags_discovered ∧
    (GameState.apply_update s u).2 = true := by
  have hnoop : ¬ u.update_type = UpdateType.noop := by rw [hty]; decide
  unfold GameState.apply_update
  rw [if_neg hnoop, locationStep_fire u (s, false) loc (Or.inr hty) hl hlne hdiff]
  refine ⟨?_, ?_, ?_⟩
  · rw [statsStep_player_location, campRestStep_player_location,
        flagRestStep_player_location, gameEventStep_player_location,
        bossEncounterStep_player_location, inventoryStep_player_location]
  · rw [statsStep_flags_discovered, campRestStep_flags_discovered]
    apply flagRestStep_flags_mem
    rw [gameEventStep_flags_eq]
    unfold closedFlags
    rw [if_pos ⟨Or.inr hty, hev⟩]
    simp only [hfn]
    rw [if_pos hne]
    exact mem_insertIfAbsent_self _ _
  · exact statsStep_changed _ _ (campRestStep_changed _ _ (flagRestStep_changed _ _
      (gameEventStep_changed _ _ (bossEncounterStep_changed _ _
      (inventoryStep_changed _ _ rfl)))))

/-- Witness for C8 at the default record and a composite observation. -/
theorem composite_fan_out_witness :
    ((GameState.apply_update initialGameState compositeUpdate).1).player_location =
        "Old Lumiere" ∧
    ("Meadow Flag" : String) ∈
        ((GameState.apply_update initialGameState compositeUpdate).1).flags_discovered ∧
    (GameState.apply_update initialGameState compositeUpdate).2 = true :=
  composite_fan_out initialGameState compositeUpdate ("Old Lumiere") ("Meadow Flag") rfl rfl
    (by decide) (by decide) rfl rfl (by decide)

/-! ### C9: monotonic sets -/

/-- Claim C9: for a record whose three monotonic lists are duplicate-free, any
observation leaves each old list a prefix of the new one (entries are only
ever appended) and preserves duplicate-freedom; moreover, applying the same
`game_event` observation (e.g. a waypoint discovery) a second time leaves the
discovered-set size unchanged. -/
theorem monotonic_sets (s : GameState) (u : StateUpdate)
    (h1 : s.bosses_defeated.Nodup) (h2 : s.axons_defeated.Nodup)
    (h3 : s.flags_discovered.Nodup) :
    (s.bosses_defeated <+: ((GameState.apply_update s u).1).bosses_defeated ∧
      ((GameState.apply_update s u).1).bosses_defeated.Nodup) ∧
    (s.axons_defeated <+: ((GameState.apply_update s u).1).axons_defeated ∧
      ((GameState.apply_update s u).1).axons_defeated.Nodup) ∧
    (s.flags_discovered <+: ((GameState.apply_update s u).1).flags_discovered ∧
      ((GameState.apply_update s u).1).flags_discovered.Nodup) ∧
    (u.update_type = UpdateType.game_event →
      ((GameState.apply_update (GameState.apply_update s u).1 u).1).flags_discovered.length
        = ((GameState.apply_update s u).1).flags_discovered.length) := by
  obtain ⟨p1, n1, p2, n2, p3, n3⟩ := apply_update_listsExtend s u
  refine ⟨⟨p1, n1 h1⟩, ⟨p2, n2 h2⟩, ⟨p3, n3 h3⟩, ?_⟩
  intro ht
  rw [apply_update_game_event_eq _ u ht, apply_update_game_event_eq _ u ht]
  have hA : ((gameEventStep u (s, false)).1).flags_discovered =
      closedFlags u s.flags_discovered := gameEventStep_flags_eq u (s, false)
  have hB : ((gameEventStep u ((gameEventStep u (s, false)).1, false)).1).flags_discovered
      = closedFlags u (((gameEventStep u (s, false)).1).flags_discovered) :=
    gameEventStep_flags_eq u _
  rw [hB, hA, closedFlags_idem]

/-- Witness for C9 at the default record and a waypoint-discovered
observation. -/
theorem monotonic_sets_witness :
    (initialGameState.bosses_defeated <+:
        ((GameState.apply_update initialGameState flagDiscUpdate).1).bosses_defeated ∧
      ((GameState.apply_update initialGameState flagDiscUpdate).1).bosses_defeated.Nodup) ∧
    (initialGameState.axons_defeated <+:
        ((GameState.apply_update initialGameState flagDiscUpdate).1).axons_defeated ∧
      ((GameState.apply_update initialGameState flagDiscUpdate).1).axons_defeated.Nodup) ∧
    (initialGameState.flags_discovered <+:
        ((GameState.apply_update initialGameState flagDiscUpdate).1).flags_discovered ∧
      ((GameState.apply_update initialGameState
          flagDiscUpdate).1).flags_discovered.Nodup) ∧
    (flagDiscUpdate.update_type = UpdateType.game_event →
      ((GameState.apply_update
          (GameState.apply_update initialGameState flagDiscUpdate).1
          flagDiscUpdate).1).flags_discovered.length
        = ((GameState.apply_update initialGameState
            flagDiscUpdate).1).flags_discovered.length) :=
  monotonic_sets initialGameState flagDiscUpdate List.nodup_nil List.nodup_nil
    List.nodup_nil

end NPC
